import Mathlib

/-!
Verification of the settings-persistence and theme-application logic of the
TextArea application (src/TextArea.py, class TextAreaApp).

The embedding models:
* the QSettings key/value store as an association list from key strings to
  value strings (QSettings' textual backends serialize integers as decimal
  strings and booleans as the literal strings "true"/"false"; reading a
  value back without a type annotation yields that string);
* Python's `int()` applied to a stored string as a fallible decimal parse
  (`pyInt`), so a malformed stored value makes the surrounding operation
  fail, modelling the uncaught ValueError;
* the mutable widget state touched by the settings/theme code
  (style sheets, debug console, window flags, live editor text) as an
  explicit `AppState` record threaded through the operations;
* the long Qt style-sheet string constants as opaque tokens (no claim
  inspects their text, only which sheet is applied);
* debug-log messages in abbreviated form (no claim inspects log text).

Each operation definition follows the corresponding Python method
line by line; the source line numbers are noted on each definition.
-/

namespace TextArea

/-! ### The settings store (QSettings model) -/

/-- A QSettings store: association list from keys to stored value strings. -/
abbrev Store := List (String × String)

/-- Look a key up in the store (QSettings: `contains`/raw read). -/
def Store.get? : Store → String → Option String
  | [], _ => none
  | (k', v') :: rest, k => if k' = k then some v' else Store.get? rest k

/-- `QSettings.setValue`: overwrite the value stored under a key. -/
def Store.set : Store → String → String → Store
  | [], k, v => [(k, v)]
  | (k', v') :: rest, k, v =>
      if k' = k then (k, v) :: rest else (k', v') :: Store.set rest k v

theorem Store.get?_set_self (st : Store) (k v : String) :
    (st.set k v).get? k = some v := by
  induction st with
  | nil => simp [Store.set, Store.get?]
  | cons p rest ih =>
      by_cases h : p.1 = k
      · simp [Store.set, Store.get?, h]
      · simp [Store.set, Store.get?, h, ih]

theorem Store.get?_set_ne (st : Store) (k k' v : String) (h : k' ≠ k) :
    (st.set k v).get? k' = st.get? k' := by
  have h' : ¬ (k = k') := fun e => h e.symm
  induction st with
  | nil => simp [Store.set, Store.get?, h']
  | cons p rest ih =>
      obtain ⟨k1, v1⟩ := p
      by_cases hk : k1 = k
      · subst hk
        simp [Store.set, Store.get?, h']
      · simp [Store.set, Store.get?, hk, ih]

/-! ### Python `int()` / decimal serialization -/

/-- The decimal digit character for `d < 10`. -/
def digitChar (d : Nat) : Char := Char.ofNat (48 + d)

/-- Numeric value of a digit character. -/
def digitVal (c : Char) : Nat := c.toNat - 48

/-- Big-endian digit accumulation step. -/
def digitStep (a : Nat) (c : Char) : Nat := a * 10 + digitVal c

/-- Parse a nonempty all-digit character list to a natural number
(the digit-string core of Python `int()`). -/
def digitsToNat (l : List Char) : Option Nat :=
  if l ≠ [] ∧ l.all Char.isDigit then some (l.foldl digitStep 0) else none

/-- Fuelled big-endian decimal rendering of a natural number. -/
def natToDigitsGo : Nat → Nat → List Char → List Char
  | 0, _, acc => acc
  | fuel + 1, n, acc =>
      if n < 10 then digitChar n :: acc
      else natToDigitsGo fuel (n / 10) (digitChar (n % 10) :: acc)

/-- Big-endian decimal digits of a natural number. -/
def natToDigits (n : Nat) : List Char := natToDigitsGo (n + 1) n []

/-- Python `str`/QSettings textual rendering of an integer. -/
def pyStrOfInt (i : Int) : String :=
  if i < 0 then String.mk (Char.ofNat 45 :: natToDigits i.natAbs)
  else String.mk (natToDigits i.toNat)

/-- QSettings textual rendering of a boolean: the literal strings
"true" / "false" (this is how Qt serializes `QVariant(bool)` in its
textual backends, and why the Python source reads booleans back with
`== "true"`). -/
def pyStrOfBool (b : Bool) : String := if b then "true" else "false"

/-- Python `int()` applied to a string: optional sign followed by at
least one decimal digit; anything else raises (`none`). -/
def pyInt (s : String) : Option Int :=
  match s.data with
  | [] => none
  | c :: rest =>
      if c = Char.ofNat 45 then (digitsToNat rest).map (fun n => -(n : Int))
      else if c = Char.ofNat 43 then (digitsToNat rest).map (fun n => (n : Int))
      else (digitsToNat (c :: rest)).map (fun n => (n : Int))

theorem digitVal_digitChar {d : Nat} (h : d < 10) : digitVal (digitChar d) = d := by
  interval_cases d <;> decide

theorem isDigit_digitChar {d : Nat} (h : d < 10) : (digitChar d).isDigit = true := by
  interval_cases d <;> decide

theorem natToDigitsGo_spec :
    ∀ fuel n acc, n < fuel →
      ∃ ds, natToDigitsGo fuel n acc = ds ++ acc ∧ ds ≠ [] ∧
        (∀ c ∈ ds, c.isDigit) ∧
        ∀ a, ds.foldl digitStep a = a * 10 ^ ds.length + n := by
  intro fuel
  induction fuel with
  | zero => intro n acc h; omega
  | succ f ih =>
      intro n acc h
      by_cases h10 : n < 10
      · refine ⟨[digitChar n], ?_, by simp, ?_, ?_⟩
        · simp [natToDigitsGo, h10]
        · intro c hc
          simp at hc
          subst hc
          exact isDigit_digitChar h10
        · intro a
          simp [digitStep, digitVal_digitChar h10]
      · have hdiv : n / 10 < n := Nat.div_lt_self (by omega) (by omega)
        have hf : n / 10 < f := by omega
        obtain ⟨ds, hds, hne, hdig, hfold⟩ :=
          ih (n / 10) (digitChar (n % 10) :: acc) hf
        refine ⟨ds ++ [digitChar (n % 10)], ?_, by simp, ?_, ?_⟩
        · simp [natToDigitsGo, h10, hds]
        · intro c hc
          rcases List.mem_append.mp hc with hc | hc
          · exact hdig c hc
          · simp at hc
            subst hc
            exact isDigit_digitChar (Nat.mod_lt n (by omega))
        · intro a
          rw [List.foldl_append]
          simp only [List.foldl, hfold a, List.length_append, List.length_singleton]
          rw [digitStep, digitVal_digitChar (Nat.mod_lt n (by omega))]
          ring_nf
          omega

theorem natToDigits_spec (n : Nat) :
    ∃ ds, natToDigits n = ds ∧ ds ≠ [] ∧ (∀ c ∈ ds, c.isDigit) ∧
      ds.foldl digitStep 0 = n := by
  obtain ⟨ds, hds, hne, hdig, hfold⟩ := natToDigitsGo_spec (n + 1) n [] (by omega)
  refine ⟨ds, by simpa [natToDigits] using hds, hne, hdig, ?_⟩
  have := hfold 0
  simpa using this

theorem digitsToNat_natToDigits (n : Nat) : digitsToNat (natToDigits n) = some n := by
  obtain ⟨ds, hds, hne, hdig, hfold⟩ := natToDigits_spec n
  rw [hds, digitsToNat, if_pos]
  · rw [hfold]
  · exact ⟨hne, List.all_eq_true.mpr (fun c hc => hdig c hc)⟩

theorem pyInt_mk_natToDigits (n : Nat) :
    pyInt (String.mk (natToDigits n)) = some (n : Int) := by
  obtain ⟨ds, hds, hne, hdig, _⟩ := natToDigits_spec n
  obtain ⟨c, rest, hcr⟩ : ∃ c rest, ds = c :: rest := by
    cases ds with
    | nil => exact absurd rfl hne
    | cons c rest => exact ⟨c, rest, rfl⟩
  subst hcr
  have hc : c.isDigit := hdig c (by simp)
  have hminus : ¬ (c = Char.ofNat 45) := by
    intro e
    rw [e] at hc
    exact absurd hc (by decide)
  have hplus : ¬ (c = Char.ofNat 43) := by
    intro e
    rw [e] at hc
    exact absurd hc (by decide)
  have hnum : digitsToNat (c :: rest) = some n := hds ▸ digitsToNat_natToDigits n
  rw [hds]
  have hred : pyInt (String.mk (c :: rest)) =
      (if c = Char.ofNat 45 then (digitsToNat rest).map (fun m => -(m : Int))
      else if c = Char.ofNat 43 then (digitsToNat rest).map (fun m => (m : Int))
      else (digitsToNat (c :: rest)).map (fun m => (m : Int))) := rfl
  rw [hred, if_neg hminus, if_neg hplus, hnum]
  rfl

theorem pyInt_mk_neg_natToDigits (n : Nat) :
    pyInt (String.mk (Char.ofNat 45 :: natToDigits n)) = some (-(n : Int)) := by
  have hred : pyInt (String.mk (Char.ofNat 45 :: natToDigits n)) =
      (digitsToNat (natToDigits n)).map (fun m => -(m : Int)) := rfl
  rw [hred, digitsToNat_natToDigits]
  rfl

/-- Serializing an integer as QSettings does and parsing it back with
Python `int()` is the identity. -/
theorem pyInt_pyStrOfInt (i : Int) : pyInt (pyStrOfInt i) = some i := by
  by_cases h : i < 0
  · rw [pyStrOfInt, if_pos h, pyInt_mk_neg_natToDigits]
    congr 1
    omega
  · rw [pyStrOfInt, if_neg h, pyInt_mk_natToDigits]
    congr 1
    omega

theorem pyStrOfBool_beq_true (b : Bool) : ((pyStrOfBool b) == "true") = b := by
  cases b <;> rfl

/-! ### Style-sheet constants

The Python source applies one of four fixed Qt style-sheet strings
(lines 213-298 and 301-387 for the main window, and the two
`QPlainTextEdit` sheets for the debug console).  No claim inspects
the sheet text, only which sheet is in force, so each constant sheet
is represented by an opaque token. -/

/-- Main-window style sheet applied in Dark mode (lines 213-286). -/
def darkWindowStyle : String := "dark-window-style"

/-- Main-window style sheet applied in Light mode (lines 301-375). -/
def lightWindowStyle : String := "light-window-style"

/-- Debug-console style sheet applied in Dark mode. -/
def darkConsoleStyle : String := "dark-console-style"

/-- Debug-console style sheet applied in Light mode. -/
def lightConsoleStyle : String := "light-console-style"

/-- `QFont.Weight.Normal` in Qt 6. -/
def qfontWeightNormal : Int := 400

/-! ### Application state -/

/-- The persisted/substantive configuration fields held on the
`TextAreaApp` instance (`font_name`, `font_size`, `font_weight`,
`theme_mode`, `text_content`, `show_debug`, `always_on_top`). -/
structure Config where
  font_name : String
  font_size : Int
  font_weight : Int
  theme_mode : String
  text_content : String
  show_debug : Bool
  always_on_top : Bool
deriving DecidableEq

/-- Main-window geometry: either restored from a stored blob or set by
`setGeometry(100, 100, 800, 600)` (lines 726-732). -/
inductive WindowGeom
  | restored (blob : String)
  | rect (x y w h : Int)
deriving DecidableEq

/-- The live widget and window state touched by the settings/theme code. -/
structure AppState where
  config : Config
  /-- Style sheet currently set on the main window (`setStyleSheet`). -/
  main_style : String
  /-- Whether the debug console widget exists (`debug_console is not None`). -/
  has_console : Bool
  /-- Style sheet currently set on the debug console. -/
  console_style : String
  /-- Visibility of the debug dock. -/
  console_visible : Bool
  /-- Current contents of the text area (`text_area.toPlainText()`). -/
  live_text : String
  /-- The `WindowStaysOnTopHint` window flag. -/
  stays_on_top : Bool
  window_geom : WindowGeom
  window_state_restored : Bool
  settings_dialog_geometry : Option String
  /-- The font last passed to `text_area.setFont` (family, size, weight). -/
  applied_font : Option (String × Int × Int)
  /-- Debug-console log lines (messages abbreviated). -/
  log : List String
deriving DecidableEq

/-- `log_debug` (lines 124-134): append to the console only when the
debug flag is on and the console widget exists. -/
def log_debug (s : AppState) (msg : String) : AppState :=
  if s.config.show_debug && s.has_console then { s with log := s.log ++ [msg] }
  else s

/-- `_init_debug_console` (lines 68-116): create the console, style it
according to the current theme (unknown themes fall back to the dark
console sheet with a log entry), dock it, and set its visibility from
`show_debug`. -/
def init_debug_console (s : AppState) : AppState :=
  let s := { s with has_console := true }
  let s :=
    if s.config.theme_mode = "Dark" then { s with console_style := darkConsoleStyle }
    else if s.config.theme_mode = "Light" then { s with console_style := lightConsoleStyle }
    else
      let s := log_debug s
        ("Unknown Theme " ++ s.config.theme_mode ++ " Set, Defaulting To Dark Theme - Console")
      { s with console_style := darkConsoleStyle }
  { s with console_visible := s.config.show_debug }

/-- One unfolding of `apply_theme`'s body after the optional-argument
handling (lines 212-392), with explicit fuel standing for the Python
call stack; the returned number counts how many times the unknown-theme
else-branch substituted `"Dark"` (line 391).  `none` models running out
of stack (infinite recursion). -/
def applyThemeAux : Nat → AppState → Option (AppState × Nat)
  | 0, _ => none
  | fuel + 1, s =>
      if s.config.theme_mode = "Dark" then
        some ({ s with
          main_style := darkWindowStyle,
          console_style := if s.has_console then darkConsoleStyle else s.console_style }, 0)
      else if s.config.theme_mode = "Light" then
        some ({ s with
          main_style := lightWindowStyle,
          console_style := if s.has_console then lightConsoleStyle else s.console_style }, 0)
      else
        let s1 := log_debug s
          ("Unknown Theme " ++ s.config.theme_mode ++ " set, Defaulting To Dark Theme")
        let s2 := { s1 with config.theme_mode := "Dark" }
        match applyThemeAux fuel s2 with
        | some (s3, n) => some (s3, n + 1)
        | none => none

/-- CPython's default recursion limit (`sys.getrecursionlimit()`). -/
def pythonRecursionLimit : Nat := 1000

/-- `apply_theme` (lines 207-392): optionally install a new theme
identifier (logging the change), then run the themed-styling body. -/
def apply_theme (s : AppState) (theme : Option String) : Option (AppState × Nat) :=
  let s1 :=
    match theme with
    | some t => log_debug { s with config.theme_mode := t } ("Theme Changed To: " ++ t)
    | none => s
  applyThemeAux pythonRecursionLimit s1

/-- `apply_font` (lines 394-399): build a font from the configuration
and set it on the text area.  (`hasattr(self, 'font_weight')` always
holds after `load_settings`, which runs before any call to this.) -/
def apply_font (s : AppState) : AppState :=
  let s := { s with
    applied_font := some (s.config.font_name, s.config.font_size, s.config.font_weight) }
  log_debug s "Font applied"

/-- `set_always_on_top` (lines 188-205): record the flag, update the
window flags and re-show the window. -/
def set_always_on_top (s : AppState) (enable : Bool) : AppState :=
  let s := { s with config.always_on_top := enable, stays_on_top := enable }
  log_debug s (if enable then "Always On Top: Enabled" else "Always On Top: Disabled")

/-! ### Loading and saving settings -/

/-- `settings.value(key, default)` for a string-typed read. -/
def getStr (st : Store) (key default : String) : String :=
  (st.get? key).getD default

/-- `int(settings.value(key, default))`: the integer default is used when
the key is absent; a present value is a stored string fed to `int()`,
which may raise (`none`). -/
def loadInt (st : Store) (key : String) (default : Int) : Option Int :=
  match st.get? key with
  | none => some default
  | some s => pyInt s

/-- The data `load_settings` establishes on the instance. -/
structure LoadResult where
  config : Config
  window_geom : WindowGeom
  window_state_restored : Bool
  settings_dialog_geometry : Option String
deriving DecidableEq

/-- `load_settings` (lines 706-737), field by field in source order;
`none` models an uncaught exception from `int()` on a malformed stored
value. -/
def load_settings (st : Store) : Option LoadResult := do
  let font_name := getStr st "font_name" "Arial"
  let font_size ← loadInt st "font_size" 16
  let theme_mode := getStr st "theme_mode" "Dark"
  let text_content := getStr st "text_content" ""
  let show_debug := getStr st "show_debug" "false" == "true"
  let font_weight ← loadInt st "font_weight" qfontWeightNormal
  let sdg := st.get? "settings_dialog_geometry"
  let always_on_top := getStr st "always_on_top" "false" == "true"
  let geom :=
    match st.get? "window_geometry" with
    | some b => if b ≠ "" then WindowGeom.restored b else WindowGeom.rect 100 100 800 600
    | none => WindowGeom.rect 100 100 800 600
  let state_restored :=
    match st.get? "window_state" with
    | some b => b ≠ ""
    | none => false
  some {
    config := {
      font_name := font_name
      font_size := font_size
      font_weight := font_weight
      theme_mode := theme_mode
      text_content := text_content
      show_debug := show_debug
      always_on_top := always_on_top }
    window_geom := geom
    window_state_restored := state_restored
    settings_dialog_geometry := sdg }

/-- Serialization of the main-window geometry blob (`saveGeometry()`). -/
def geomBlob : WindowGeom → String
  | WindowGeom.restored b => b
  | WindowGeom.rect x y w h =>
      "rect-" ++ pyStrOfInt x ++ "-" ++ pyStrOfInt y ++ "-"
        ++ pyStrOfInt w ++ "-" ++ pyStrOfInt h

/-- `save_settings_to_file` (lines 692-704): write every setting, in
source order, serialized the way QSettings' textual backends store it.
`text_content` is written from the live text area, not from the
`text_content` attribute (line 698).  The final conditional models the
`hasattr` guard: an absent dialog geometry stores nothing usable. -/
def save_settings_to_file (s : AppState) (st : Store) : Store :=
  let st := st.set "font_name" s.config.font_name
  let st := st.set "font_size" (pyStrOfInt s.config.font_size)
  let st := st.set "font_weight" (pyStrOfInt s.config.font_weight)
  let st := st.set "theme_mode" s.config.theme_mode
  let st := st.set "text_content" s.live_text
  let st := st.set "window_geometry" (geomBlob s.window_geom)
  let st := st.set "window_state" "window-state-blob"
  let st := st.set "show_debug" (pyStrOfBool s.config.show_debug)
  let st := st.set "always_on_top" (pyStrOfBool s.config.always_on_top)
  match s.settings_dialog_geometry with
  | some g => st.set "settings_dialog_geometry" g
  | none => st

/-! ### Startup and the dialog / console handlers -/

/-- `__init__` (lines 26-66) after `load_settings` succeeds: defaults
already overwritten by the load result, debug console initialized when
enabled, theme applied, UI built, font applied, text content installed,
always-on-top applied. -/
def startup (st : Store) : Option AppState := do
  let r ← load_settings st
  let s : AppState := {
    config := r.config
    main_style := ""
    has_console := false
    console_style := ""
    console_visible := false
    live_text := ""
    stays_on_top := false
    window_geom := r.window_geom
    window_state_restored := r.window_state_restored
    settings_dialog_geometry := r.settings_dialog_geometry
    applied_font := none
    log := [] }
  let s := log_debug s "Application initialized"
  let s :=
    if s.config.show_debug then
      let s := init_debug_console s
      let s := log_debug s "Application started"
      log_debug s ("Current Theme: " ++ s.config.theme_mode)
    else s
  let (s, _) ← apply_theme s none
  let s := apply_font s
  let s := { s with live_text := s.config.text_content }
  some (set_always_on_top s s.config.always_on_top)

/-- The settings dialog's `close_event` handler (lines 572-577): record
the dialog geometry, persist, close.  This is the `Open -> Discarded`
transition — it runs when the dialog is closed without pressing Save. -/
def close_event (s : AppState) (st : Store) (dialogGeom : String) : AppState × Store :=
  let s := { s with settings_dialog_geometry := some dialogGeom }
  (s, save_settings_to_file s st)

/-- `handle_debug_console_close` (lines 118-122): clear the debug flag
and persist. -/
def handle_debug_console_close (s : AppState) (st : Store) : AppState × Store :=
  let s := { s with config.show_debug := false }
  (s, save_settings_to_file s st)

/-- Main-window `closeEvent` (lines 739-743): sync `text_content` with
the live text, persist, accept. -/
def main_close_event (s : AppState) (st : Store) : AppState × Store :=
  let s := { s with config.text_content := s.live_text }
  (s, save_settings_to_file s st)

/-- `QSpinBox.setValue` with `setRange(8, 72)` in force (line 498):
out-of-range input is clamped to the range. -/
def qspinValue (lo hi v : Int) : Int := max lo (min hi v)

/-- The widget values read out of the settings dialog when Save fires:
the checked theme radio id (`1` = Dark, `2` = Light, `-1` = none), the
font combo's family, the raw value typed into the size spin box, the
weight combo's current data, and the two check boxes. -/
structure DialogInput where
  theme_id : Int
  family : String
  size_input : Int
  weight : Int
  aot : Bool
  debug : Bool

/-- `save_settings`, lines 597-614: record the dialog geometry, read
the checked theme radio id (`1` = Dark, `2` = Light, anything else
defaults to Dark), run the redundant validation against
`["Dark", "Light"]`, and log the change. -/
def save_settings_theme (s : AppState) (d : DialogInput) (dialogGeom : String) : AppState :=
  let s := { s with settings_dialog_geometry := some dialogGeom }
  let tm : String :=
    if d.theme_id = 1 then "Dark" else if d.theme_id = 2 then "Light" else "Dark"
  let s := { s with config.theme_mode := tm }
  let s :=
    if s.config.theme_mode = "Dark" ∨ s.config.theme_mode = "Light" then s
    else { (log_debug s "Invalid Theme Selected, Defaulting To Dark") with
           config.theme_mode := "Dark" }
  log_debug s ("Theme Changed To: " ++ s.config.theme_mode)

/-- `save_settings`, lines 616-629: commit the font family, the
(spin-box-clamped) size and the weight, logging each change. -/
def save_settings_font (s : AppState) (d : DialogInput) : AppState :=
  let old_font := s.config.font_name
  let old_size := s.config.font_size
  let old_weight := s.config.font_weight
  let s := { s with
    config.font_name := d.family,
    config.font_size := qspinValue 8 72 d.size_input,
    config.font_weight := d.weight }
  let s := if old_font ≠ s.config.font_name then log_debug s "Font-Family Changed" else s
  let s := if old_size ≠ s.config.font_size then log_debug s "Font-Size Changed" else s
  if old_weight ≠ s.config.font_weight then log_debug s "Font-Weight Changed" else s

/-- `save_settings`, lines 631-648: apply the always-on-top checkbox
(only when changed) and the debug checkbox; the returned boolean is
`debug_setting_changed`. -/
def save_settings_flags (s : AppState) (d : DialogInput) : AppState × Bool :=
  let aot_changed := d.aot ≠ s.config.always_on_top
  let s :=
    if aot_changed then log_debug (set_always_on_top s d.aot) "Always On Top setting changed"
    else s
  let debug_changed := d.debug ≠ s.config.show_debug
  let s := { s with config.show_debug := d.debug }
  let s := if debug_changed then log_debug s "Debug console setting changed" else s
  (s, debug_changed)

/-- `save_settings`, lines 654-684: reconcile the debug console's
existence/visibility with the new flag and force its style sheet to the
current theme.  -/
def save_settings_console (s : AppState) (debug_changed : Bool) : AppState :=
  let s :=
    if debug_changed then
      if s.config.show_debug then log_debug (init_debug_console s) "Debug console enabled"
      else if s.has_console then
        log_debug { s with console_visible := false } "Debug console hidden"
      else s
    else s
  if s.has_console then
    { s with console_style :=
        if s.config.theme_mode = "Dark" then darkConsoleStyle else lightConsoleStyle }
  else s

/-- `save_settings` (lines 596-690): commit the dialog's working values
into the configuration, re-apply theme and font, reconcile the debug
console, and persist.  `dialogGeom` models `dialog.saveGeometry()`. -/
def save_settings (s : AppState) (st : Store) (d : DialogInput) (dialogGeom : String) :
    Option (AppState × Store) :=
  let s := save_settings_theme s d dialogGeom
  let s := save_settings_font s d
  let (s, debug_changed) := save_settings_flags s d
  match apply_theme s none with
  | none => none
  | some (s, _) =>
    let s := apply_font s
    let s := save_settings_console s debug_changed
    let st := save_settings_to_file s st
    some (log_debug s "Settings Saved.", st)

/-! ### Concrete stores and states used as inputs -/

/-- A fresh per-user registry: nothing stored yet. -/
def emptyStore : Store := []

/-- A store whose theme value is the unrecognized string "Purple". -/
def purpleStore : Store := [("theme_mode", "Purple")]

/-- A store whose `font_size` value is a non-numeric string. -/
def malformedStore : Store := [("font_size", "abc")]

/-- A store holding an out-of-range `font_size` of 500. -/
def bigFontStore : Store := [("font_size", "500")]

/-- A sample in-memory application state used to instantiate the
universally quantified theorems. -/
def sampleState : AppState := {
  config := {
    font_name := "Arial"
    font_size := 16
    font_weight := 400
    theme_mode := "Dark"
    text_content := "hello"
    show_debug := false
    always_on_top := false }
  main_style := darkWindowStyle
  has_console := false
  console_style := ""
  console_visible := false
  live_text := "hello"
  stays_on_top := false
  window_geom := WindowGeom.rect 100 100 800 600
  window_state_restored := false
  settings_dialog_geometry := none
  applied_font := some ("Arial", 16, 400)
  log := [] }

/-! ### Helper lemmas -/

theorem log_debug_eq (s : AppState) (m : String) :
    ∃ l, log_debug s m = { s with log := l } := by
  rw [log_debug]
  split
  · exact ⟨s.log ++ [m], rfl⟩
  · exact ⟨s.log, rfl⟩

@[simp] theorem log_debug_config (s : AppState) (m : String) :
    (log_debug s m).config = s.config := by
  obtain ⟨l, h⟩ := log_debug_eq s m
  rw [h]

@[simp] theorem log_debug_main_style (s : AppState) (m : String) :
    (log_debug s m).main_style = s.main_style := by
  obtain ⟨l, h⟩ := log_debug_eq s m
  rw [h]

@[simp] theorem log_debug_has_console (s : AppState) (m : String) :
    (log_debug s m).has_console = s.has_console := by
  obtain ⟨l, h⟩ := log_debug_eq s m
  rw [h]

@[simp] theorem log_debug_console_style (s : AppState) (m : String) :
    (log_debug s m).console_style = s.console_style := by
  obtain ⟨l, h⟩ := log_debug_eq s m
  rw [h]

@[simp] theorem log_debug_console_visible (s : AppState) (m : String) :
    (log_debug s m).console_visible = s.console_visible := by
  obtain ⟨l, h⟩ := log_debug_eq s m
  rw [h]

@[simp] theorem log_debug_live_text (s : AppState) (m : String) :
    (log_debug s m).live_text = s.live_text := by
  obtain ⟨l, h⟩ := log_debug_eq s m
  rw [h]

@[simp] theorem log_debug_stays_on_top (s : AppState) (m : String) :
    (log_debug s m).stays_on_top = s.stays_on_top := by
  obtain ⟨l, h⟩ := log_debug_eq s m
  rw [h]

@[simp] theorem log_debug_window_geom (s : AppState) (m : String) :
    (log_debug s m).window_geom = s.window_geom := by
  obtain ⟨l, h⟩ := log_debug_eq s m
  rw [h]

@[simp] theorem log_debug_applied_font (s : AppState) (m : String) :
    (log_debug s m).applied_font = s.applied_font := by
  obtain ⟨l, h⟩ := log_debug_eq s m
  rw [h]

@[simp] theorem log_debug_sdg (s : AppState) (m : String) :
    (log_debug s m).settings_dialog_geometry = s.settings_dialog_geometry := by
  obtain ⟨l, h⟩ := log_debug_eq s m
  rw [h]

theorem save_get_font_name (s : AppState) (st : Store) :
    (save_settings_to_file s st).get? "font_name" = some s.config.font_name := by
  rw [save_settings_to_file]
  cases s.settings_dialog_geometry <;>
    simp +decide [Store.get?_set_ne, Store.get?_set_self]

theorem save_get_font_size (s : AppState) (st : Store) :
    (save_settings_to_file s st).get? "font_size" = some (pyStrOfInt s.config.font_size) := by
  rw [save_settings_to_file]
  cases s.settings_dialog_geometry <;>
    simp +decide [Store.get?_set_ne, Store.get?_set_self]

theorem save_get_font_weight (s : AppState) (st : Store) :
    (save_settings_to_file s st).get? "font_weight" = some (pyStrOfInt s.config.font_weight) := by
  rw [save_settings_to_file]
  cases s.settings_dialog_geometry <;>
    simp +decide [Store.get?_set_ne, Store.get?_set_self]

theorem save_get_theme_mode (s : AppState) (st : Store) :
    (save_settings_to_file s st).get? "theme_mode" = some s.config.theme_mode := by
  rw [save_settings_to_file]
  cases s.settings_dialog_geometry <;>
    simp +decide [Store.get?_set_ne, Store.get?_set_self]

theorem save_get_text_content (s : AppState) (st : Store) :
    (save_settings_to_file s st).get? "text_content" = some s.live_text := by
  rw [save_settings_to_file]
  cases s.settings_dialog_geometry <;>
    simp +decide [Store.get?_set_ne, Store.get?_set_self]

theorem save_get_window_geometry (s : AppState) (st : Store) :
    (save_settings_to_file s st).get? "window_geometry" = some (geomBlob s.window_geom) := by
  rw [save_settings_to_file]
  cases s.settings_dialog_geometry <;>
    simp +decide [Store.get?_set_ne, Store.get?_set_self]

theorem save_get_window_state (s : AppState) (st : Store) :
    (save_settings_to_file s st).get? "window_state" = some "window-state-blob" := by
  rw [save_settings_to_file]
  cases s.settings_dialog_geometry <;>
    simp +decide [Store.get?_set_ne, Store.get?_set_self]

theorem save_get_show_debug (s : AppState) (st : Store) :
    (save_settings_to_file s st).get? "show_debug" = some (pyStrOfBool s.config.show_debug) := by
  rw [save_settings_to_file]
  cases s.settings_dialog_geometry <;>
    simp +decide [Store.get?_set_ne, Store.get?_set_self]

theorem save_get_always_on_top (s : AppState) (st : Store) :
    (save_settings_to_file s st).get? "always_on_top" = some (pyStrOfBool s.config.always_on_top) := by
  rw [save_settings_to_file]
  cases s.settings_dialog_geometry <;>
    simp +decide [Store.get?_set_ne, Store.get?_set_self]

theorem applyThemeAux_of_dark {fuel : Nat} (hf : fuel ≠ 0) {s : AppState}
    (h : s.config.theme_mode = "Dark") :
    applyThemeAux fuel s = some ({ s with
      main_style := darkWindowStyle,
      console_style := if s.has_console then darkConsoleStyle else s.console_style }, 0) := by
  obtain ⟨f, rfl⟩ := Nat.exists_eq_succ_of_ne_zero hf
  rw [applyThemeAux, if_pos h]

theorem applyThemeAux_of_light {fuel : Nat} (hf : fuel ≠ 0) {s : AppState}
    (h : s.config.theme_mode = "Light") :
    applyThemeAux fuel s = some ({ s with
      main_style := lightWindowStyle,
      console_style := if s.has_console then lightConsoleStyle else s.console_style }, 0) := by
  obtain ⟨f, rfl⟩ := Nat.exists_eq_succ_of_ne_zero hf
  rw [applyThemeAux, if_neg (by rw [h]; decide), if_pos h]

/-- All fields `applyThemeAux` can touch besides the theme and the
styles are preserved, and a successful run always ends in a valid
theme. -/
theorem applyThemeAux_fields : ∀ fuel (s s' : AppState) (n : Nat),
    applyThemeAux fuel s = some (s', n) →
    (s'.config.theme_mode = "Dark" ∨ s'.config.theme_mode = "Light") ∧
    s'.config.font_name = s.config.font_name ∧
    s'.config.font_size = s.config.font_size ∧
    s'.config.font_weight = s.config.font_weight ∧
    s'.config.text_content = s.config.text_content ∧
    s'.config.show_debug = s.config.show_debug ∧
    s'.config.always_on_top = s.config.always_on_top ∧
    s'.has_console = s.has_console ∧
    s'.live_text = s.live_text ∧
    s'.applied_font = s.applied_font ∧
    s'.settings_dialog_geometry = s.settings_dialog_geometry := by
  intro fuel
  induction fuel with
  | zero =>
      intro s s' n h
      simp [applyThemeAux] at h
  | succ f ih =>
      intro s s' n h
      rw [applyThemeAux] at h
      by_cases hD : s.config.theme_mode = "Dark"
      · rw [if_pos hD] at h
        simp only [Option.some.injEq, Prod.mk.injEq] at h
        obtain ⟨hs, hn⟩ := h
        subst hs
        simp [hD]
      · rw [if_neg hD] at h
        by_cases hL : s.config.theme_mode = "Light"
        · rw [if_pos hL] at h
          simp only [Option.some.injEq, Prod.mk.injEq] at h
          obtain ⟨hs, hn⟩ := h
          subst hs
          simp [hL]
        · rw [if_neg hL] at h
          simp only at h
          split at h
          · next s3 n3 heq =>
              simp only [Option.some.injEq, Prod.mk.injEq] at h
              obtain ⟨hs, hn⟩ := h
              subst hs
              have := ih _ _ _ heq
              simpa using this
          · exact absurd h (by simp)

theorem load_settings_isSome_iff (st : Store) :
    (load_settings st).isSome ↔
      (loadInt st "font_size" 16).isSome ∧
      (loadInt st "font_weight" qfontWeightNormal).isSome := by
  rw [load_settings]
  cases hfs : loadInt st "font_size" 16 with
  | none => simp [hfs]
  | some fs =>
      cases hfw : loadInt st "font_weight" qfontWeightNormal with
      | none => simp [hfs, hfw]
      | some fw => simp [hfs, hfw]

theorem load_settings_eq (st : Store) (fs fw : Int)
    (hfs : loadInt st "font_size" 16 = some fs)
    (hfw : loadInt st "font_weight" qfontWeightNormal = some fw) :
    load_settings st = some {
      config := {
        font_name := getStr st "font_name" "Arial"
        font_size := fs
        font_weight := fw
        theme_mode := getStr st "theme_mode" "Dark"
        text_content := getStr st "text_content" ""
        show_debug := getStr st "show_debug" "false" == "true"
        always_on_top := getStr st "always_on_top" "false" == "true" }
      window_geom :=
        match st.get? "window_geometry" with
        | some b => if b ≠ "" then WindowGeom.restored b else WindowGeom.rect 100 100 800 600
        | none => WindowGeom.rect 100 100 800 600
      window_state_restored :=
        match st.get? "window_state" with
        | some b => decide (b ≠ "")
        | none => false
      settings_dialog_geometry := st.get? "settings_dialog_geometry" } := by
  rw [load_settings, hfs]
  simp only [Option.some_bind]
  rw [hfw]
  rfl

theorem load_settings_fields (st : Store) (r : LoadResult) (h : load_settings st = some r) :
    r.config.font_name = getStr st "font_name" "Arial" ∧
    loadInt st "font_size" 16 = some r.config.font_size ∧
    r.config.theme_mode = getStr st "theme_mode" "Dark" ∧
    r.config.text_content = getStr st "text_content" "" ∧
    r.config.show_debug = (getStr st "show_debug" "false" == "true") ∧
    loadInt st "font_weight" qfontWeightNormal = some r.config.font_weight ∧
    r.config.always_on_top = (getStr st "always_on_top" "false" == "true") ∧
    r.settings_dialog_geometry = st.get? "settings_dialog_geometry" ∧
    r.window_geom = (match st.get? "window_geometry" with
      | some b => if b ≠ "" then WindowGeom.restored b else WindowGeom.rect 100 100 800 600
      | none => WindowGeom.rect 100 100 800 600) := by
  have hs : (load_settings st).isSome := by rw [h]; rfl
  obtain ⟨h1, h2⟩ := (load_settings_isSome_iff st).mp hs
  obtain ⟨fs, hfs⟩ := Option.isSome_iff_exists.mp h1
  obtain ⟨fw, hfw⟩ := Option.isSome_iff_exists.mp h2
  rw [load_settings_eq st fs fw hfs hfw] at h
  simp only [Option.some.injEq] at h
  subst h
  exact ⟨rfl, hfs, rfl, rfl, rfl, hfw, rfl, rfl, rfl⟩

@[simp] theorem set_always_on_top_config (s : AppState) (e : Bool) :
    (set_always_on_top s e).config = { s.config with always_on_top := e } := by
  simp [set_always_on_top]

@[simp] theorem apply_font_config (s : AppState) :
    (apply_font s).config = s.config := by
  simp [apply_font]

@[simp] theorem init_debug_console_config (s : AppState) :
    (init_debug_console s).config = s.config := by
  rw [init_debug_console]
  by_cases hD : s.config.theme_mode = "Dark"
  · simp [hD]
  · by_cases hL : s.config.theme_mode = "Light" <;> simp [hD, hL]

/-- `apply_theme` characterization used by the invariant claims. -/
theorem apply_theme_fields (s : AppState) (t : Option String) (s' : AppState) (n : Nat)
    (h : apply_theme s t = some (s', n)) :
    (s'.config.theme_mode = "Dark" ∨ s'.config.theme_mode = "Light") ∧
    s'.config.font_name = s.config.font_name ∧
    s'.config.font_size = s.config.font_size ∧
    s'.config.font_weight = s.config.font_weight ∧
    s'.config.text_content = s.config.text_content ∧
    s'.config.show_debug = s.config.show_debug ∧
    s'.config.always_on_top = s.config.always_on_top ∧
    s'.has_console = s.has_console ∧
    s'.live_text = s.live_text ∧
    s'.applied_font = s.applied_font ∧
    s'.settings_dialog_geometry = s.settings_dialog_geometry := by
  rw [apply_theme.eq_def] at h
  cases t with
  | none => exact applyThemeAux_fields _ _ _ _ h
  | some tv =>
      simp only at h
      have := applyThemeAux_fields _ _ _ _ h
      simpa using this

theorem apply_theme_dark_eq (s : AppState) :
    apply_theme s (some "Dark") =
      some ({ log_debug { s with config.theme_mode := "Dark" }
                ("Theme Changed To: " ++ "Dark") with
              main_style := darkWindowStyle,
              console_style := if s.has_console then darkConsoleStyle else s.console_style },
            0) := by
  rw [apply_theme.eq_def]
  simp only
  rw [applyThemeAux_of_dark (by decide) (by simp)]
  simp

theorem apply_theme_light_eq (s : AppState) :
    apply_theme s (some "Light") =
      some ({ log_debug { s with config.theme_mode := "Light" }
                ("Theme Changed To: " ++ "Light") with
              main_style := lightWindowStyle,
              console_style := if s.has_console then lightConsoleStyle else s.console_style },
            0) := by
  rw [apply_theme.eq_def]
  simp only
  rw [applyThemeAux_of_light (by decide) (by simp)]
  simp

theorem startup_theme (st : Store) (s : AppState) (h : startup st = some s) :
    s.config.theme_mode = "Dark" ∨ s.config.theme_mode = "Light" := by
  rw [startup] at h
  cases hr : load_settings st with
  | none => rw [hr] at h; exact absurd h (by simp)
  | some r =>
      rw [hr] at h
      simp only [Option.bind_eq_bind', Option.some_bind'] at h
      rw [Option.bind_eq_some'] at h
      obtain ⟨⟨s1, n1⟩, hat, h⟩ := h
      simp only [Option.some.injEq] at h
      subst h
      have := (apply_theme_fields _ _ _ _ hat).1
      simpa using this

theorem save_settings_theme_fields (s : AppState) (d : DialogInput) (g : String) :
    ((save_settings_theme s d g).config.theme_mode = "Dark" ∨
      (save_settings_theme s d g).config.theme_mode = "Light") ∧
    (save_settings_theme s d g).config.font_name = s.config.font_name ∧
    (save_settings_theme s d g).config.font_size = s.config.font_size ∧
    (save_settings_theme s d g).config.font_weight = s.config.font_weight ∧
    (save_settings_theme s d g).config.show_debug = s.config.show_debug ∧
    (save_settings_theme s d g).config.always_on_top = s.config.always_on_top := by
  rw [save_settings_theme]
  by_cases h1 : d.theme_id = 1
  · simp [h1]
  · by_cases h2 : d.theme_id = 2 <;> simp [h1, h2]

@[simp] theorem config_ite (c : Prop) [Decidable c] (a b : AppState) :
    (if c then a else b).config = if c then a.config else b.config := by
  split <;> rfl

theorem save_settings_font_config (s : AppState) (d : DialogInput) :
    (save_settings_font s d).config = { s.config with
      font_name := d.family,
      font_size := qspinValue 8 72 d.size_input,
      font_weight := d.weight } := by
  rw [save_settings_font]
  simp

theorem save_settings_flags_fst_config (s : AppState) (d : DialogInput) :
    (save_settings_flags s d).1.config = { s.config with
      always_on_top := d.aot, show_debug := d.debug } := by
  rw [save_settings_flags]
  by_cases ha : d.aot = s.config.always_on_top
  · simp [ha]
  · simp [ha]

theorem save_settings_console_config (s : AppState) (dc : Bool) :
    (save_settings_console s dc).config = s.config := by
  rw [save_settings_console]
  simp

theorem save_settings_fields (s : AppState) (st : Store) (d : DialogInput) (g : String)
    (s' : AppState) (st' : Store) (h : save_settings s st d g = some (s', st')) :
    (s'.config.theme_mode = "Dark" ∨ s'.config.theme_mode = "Light") ∧
    s'.config.font_name = d.family ∧
    s'.config.font_size = qspinValue 8 72 d.size_input ∧
    s'.config.font_weight = d.weight ∧
    s'.config.show_debug = d.debug := by
  rw [save_settings.eq_def] at h
  simp only at h
  rcases hp : save_settings_flags (save_settings_font (save_settings_theme s d g) d) d
    with ⟨sf, dc⟩
  rw [hp] at h
  simp only at h
  split at h
  · exact absurd h (by simp)
  · next s1 n1 heq =>
      simp only [Option.some.injEq, Prod.mk.injEq] at h
      obtain ⟨hs, hst⟩ := h
      subst hs
      have hf := apply_theme_fields _ _ _ _ heq
      have hsf : sf.config = { (save_settings_font (save_settings_theme s d g) d).config with
          always_on_top := d.aot, show_debug := d.debug } := by
        have hone := save_settings_flags_fst_config (save_settings_font (save_settings_theme s d g) d) d
        rw [hp] at hone
        exact hone
      have hfc := save_settings_font_config (save_settings_theme s d g) d
      refine ⟨?_, ?_, ?_, ?_, ?_⟩ <;>
        simp only [log_debug_config, save_settings_console_config, apply_font_config]
      · exact hf.1
      · rw [hf.2.1, hsf, hfc]
      · rw [hf.2.2.1, hsf, hfc]
      · rw [hf.2.2.2.1, hsf, hfc]
      · rw [hf.2.2.2.2.2.1, hsf]

/-! ### The claims -/

/-- C1: saving the configuration (`save_settings_to_file`) and then
loading it in a fresh process (`load_settings`) reproduces identical
values for fontFamily, fontSize, fontWeight, theme, textContent,
showDebugConsole and alwaysOnTop; the write encoding of each field is
read back to an equal value by the corresponding load expression.  The
hypothesis records that the in-memory `text_content` attribute agrees
with the live editor text, which is what line 698 actually writes. -/
theorem C1_save_load_round_trip (s : AppState) (st : Store)
    (h : s.config.text_content = s.live_text) :
    ∃ r, load_settings (save_settings_to_file s st) = some r ∧
      r.config.font_name = s.config.font_name ∧
      r.config.font_size = s.config.font_size ∧
      r.config.font_weight = s.config.font_weight ∧
      r.config.theme_mode = s.config.theme_mode ∧
      r.config.text_content = s.config.text_content ∧
      r.config.show_debug = s.config.show_debug ∧
      r.config.always_on_top = s.config.always_on_top := by
  have hfs : loadInt (save_settings_to_file s st) "font_size" 16
      = some s.config.font_size := by
    rw [loadInt, save_get_font_size]
    exact pyInt_pyStrOfInt _
  have hfw : loadInt (save_settings_to_file s st) "font_weight" qfontWeightNormal
      = some s.config.font_weight := by
    rw [loadInt, save_get_font_weight]
    exact pyInt_pyStrOfInt _
  refine ⟨_, load_settings_eq _ _ _ hfs hfw, ?_, rfl, rfl, ?_, ?_, ?_, ?_⟩
  · show getStr _ "font_name" "Arial" = _
    rw [getStr, save_get_font_name]
    rfl
  · show getStr _ "theme_mode" "Dark" = _
    rw [getStr, save_get_theme_mode]
    rfl
  · show getStr _ "text_content" "" = _
    rw [getStr, save_get_text_content]
    exact h.symm
  · show (getStr _ "show_debug" "false" == "true") = _
    rw [getStr, save_get_show_debug]
    exact pyStrOfBool_beq_true _
  · show (getStr _ "always_on_top" "false" == "true") = _
    rw [getStr, save_get_always_on_top]
    exact pyStrOfBool_beq_true _

/-- Witness for C1, at the sample state and the empty store. -/
theorem C1_witness :
    sampleState.config.text_content = sampleState.live_text ∧
    ∃ r, load_settings (save_settings_to_file sampleState emptyStore) = some r ∧
      r.config.font_name = sampleState.config.font_name ∧
      r.config.font_size = sampleState.config.font_size ∧
      r.config.font_weight = sampleState.config.font_weight ∧
      r.config.theme_mode = sampleState.config.theme_mode ∧
      r.config.text_content = sampleState.config.text_content ∧
      r.config.show_debug = sampleState.config.show_debug ∧
      r.config.always_on_top = sampleState.config.always_on_top :=
  ⟨rfl, C1_save_load_round_trip sampleState emptyStore rfl⟩

/-- C2: for every theme identifier outside Dark/Light, `apply_theme`
terminates within the Python recursion limit, performs exactly one
corrective substitution (the returned counter is 1), and leaves
`theme_mode` equal to Dark with the Dark style sheet applied. -/
theorem C2_unknown_theme_recovers (s : AppState) (t : String)
    (hD : t ≠ "Dark") (hL : t ≠ "Light") :
    ∃ s', apply_theme s (some t) = some (s', 1) ∧
      s'.config.theme_mode = "Dark" ∧ s'.main_style = darkWindowStyle := by
  rw [apply_theme.eq_def]
  simp only
  have h1 : (log_debug { s with config.theme_mode := t }
      ("Theme Changed To: " ++ t)).config.theme_mode = t := by simp
  rw [show pythonRecursionLimit = 999 + 1 from rfl]
  rw [applyThemeAux]
  rw [if_neg (by rw [h1]; exact hD), if_neg (by rw [h1]; exact hL)]
  simp only
  rw [applyThemeAux_of_dark (by decide) (by simp)]
  exact ⟨_, rfl, by simp, rfl⟩

/-- Witness for C2, at the sample state and theme "Purple". -/
theorem C2_witness :
    ("Purple" : String) ≠ "Dark" ∧ ("Purple" : String) ≠ "Light" ∧
    ∃ s', apply_theme sampleState (some "Purple") = some (s', 1) ∧
      s'.config.theme_mode = "Dark" ∧ s'.main_style = darkWindowStyle :=
  ⟨by decide, by decide,
   C2_unknown_theme_recovers sampleState "Purple" (by decide) (by decide)⟩

/-- The state startup computes from the store holding theme "Purple". -/
def purpleStartupState : AppState := (startup purpleStore).getD sampleState

/-- C3: at the end of startup (every load path) and after the dialog
save path, `theme_mode` is one of the two valid values; the remaining
persistence handlers leave it unchanged; and in particular a stored
theme of "Purple" resolves to Dark at the end of startup. -/
theorem C3_theme_always_valid :
    (∀ st s, startup st = some s →
      s.config.theme_mode = "Dark" ∨ s.config.theme_mode = "Light") ∧
    (∀ s st d g s' st', save_settings s st d g = some (s', st') →
      s'.config.theme_mode = "Dark" ∨ s'.config.theme_mode = "Light") ∧
    (∀ s st g,
      (close_event s st g).1.config.theme_mode = s.config.theme_mode ∧
      (handle_debug_console_close s st).1.config.theme_mode = s.config.theme_mode ∧
      (main_close_event s st).1.config.theme_mode = s.config.theme_mode) ∧
    (∃ s, startup purpleStore = some s ∧ s.config.theme_mode = "Dark") := by
  refine ⟨startup_theme, ?_, ?_, ⟨purpleStartupState, rfl, rfl⟩⟩
  · intro s st d g s' st' h
    exact (save_settings_fields s st d g s' st' h).1
  · intro s st g
    exact ⟨rfl, rfl, rfl⟩

/-- Witness for C3, applying the startup conjunct at the "Purple" store. -/
theorem C3_witness :
    purpleStartupState.config.theme_mode = "Dark" ∨
    purpleStartupState.config.theme_mode = "Light" :=
  C3_theme_always_valid.1 purpleStore purpleStartupState rfl

/-- C4 counterexample: with `font_size` stored as the non-numeric string
"abc", `load_settings` raises (modelled as `none`) instead of using the
caller's default, and startup does not reach a usable window state. -/
theorem C4_counterexample :
    load_settings malformedStore = none ∧ startup malformedStore = none :=
  ⟨rfl, rfl⟩

/-- C4 amended: an absent stored value is replaced by the caller's
default, but a malformed numeric string is not: `load_settings` fails
exactly when the stored `font_size` or `font_weight` cannot be parsed
by `int()`. -/
theorem C4_amended_defaults_only_for_absent :
    (∀ st, (load_settings st).isSome ↔
      ((loadInt st "font_size" 16).isSome ∧
        (loadInt st "font_weight" qfontWeightNormal).isSome)) ∧
    (∀ st r, load_settings st = some r →
      (st.get? "font_name" = none → r.config.font_name = "Arial") ∧
      (st.get? "font_size" = none → r.config.font_size = 16) ∧
      (st.get? "theme_mode" = none → r.config.theme_mode = "Dark") ∧
      (st.get? "text_content" = none → r.config.text_content = "") ∧
      (st.get? "show_debug" = none → r.config.show_debug = false) ∧
      (st.get? "font_weight" = none → r.config.font_weight = qfontWeightNormal) ∧
      (st.get? "always_on_top" = none → r.config.always_on_top = false) ∧
      (st.get? "window_geometry" = none →
        r.window_geom = WindowGeom.rect 100 100 800 600)) := by
  constructor
  · exact load_settings_isSome_iff
  · intro st r h
    have hf := load_settings_fields st r h
    refine ⟨?_, ?_, ?_, ?_, ?_, ?_, ?_, ?_⟩
    · intro hn
      rw [hf.1, getStr, hn]
      rfl
    · intro hn
      have h16 : loadInt st "font_size" 16 = some 16 := by rw [loadInt, hn]
      have hv := hf.2.1
      rw [h16] at hv
      simpa using hv.symm
    · intro hn
      rw [hf.2.2.1, getStr, hn]
      rfl
    · intro hn
      rw [hf.2.2.2.1, getStr, hn]
      rfl
    · intro hn
      rw [hf.2.2.2.2.1, getStr, hn]
      rfl
    · intro hn
      have h400 : loadInt st "font_weight" qfontWeightNormal = some qfontWeightNormal := by
        rw [loadInt, hn]
      have hv := hf.2.2.2.2.2.1
      rw [h400] at hv
      simpa using hv.symm
    · intro hn
      rw [hf.2.2.2.2.2.2.1, getStr, hn]
      rfl
    · intro hn
      rw [hf.2.2.2.2.2.2.2.2, hn]

/-- Fallback used only to name the concrete load result of the empty store. -/
def fallbackLoadResult : LoadResult := {
  config := { font_name := "", font_size := 0, font_weight := 0, theme_mode := "",
              text_content := "", show_debug := false, always_on_top := false }
  window_geom := WindowGeom.rect 0 0 0 0
  window_state_restored := false
  settings_dialog_geometry := none }

/-- The load result of a fresh, empty store. -/
def emptyLoadResult : LoadResult := (load_settings emptyStore).getD fallbackLoadResult

/-- Witness for C4, applying the amended theorem at the empty store. -/
theorem C4_witness :
    load_settings emptyStore = some emptyLoadResult ∧
    emptyLoadResult.config.font_name = "Arial" ∧
    emptyLoadResult.config.font_size = 16 ∧
    emptyLoadResult.config.theme_mode = "Dark" ∧
    emptyLoadResult.window_geom = WindowGeom.rect 100 100 800 600 := by
  have h : load_settings emptyStore = some emptyLoadResult := rfl
  have hp := C4_amended_defaults_only_for_absent.2 emptyStore emptyLoadResult h
  exact ⟨h, hp.1 rfl, hp.2.1 rfl, hp.2.2.1 rfl, hp.2.2.2.2.2.2.2 rfl⟩

/-- The state startup computes from the store holding font_size 500. -/
def bigFontStartupState : AppState := (startup bigFontStore).getD sampleState

/-- C5 counterexample: a stored `font_size` of 500 is loaded without any
clamping and reaches `apply_font` as-is, so `fontSize` is not within
[8, 72] in every reachable configuration state. -/
theorem C5_counterexample :
    startup bigFontStore = some bigFontStartupState ∧
    bigFontStartupState.config.font_size = 500 ∧
    bigFontStartupState.applied_font = some ("Arial", 500, qfontWeightNormal) ∧
    ¬ (8 ≤ bigFontStartupState.config.font_size ∧
        bigFontStartupState.config.font_size ≤ 72) := by
  refine ⟨rfl, rfl, rfl, ?_⟩
  decide

/-- C5 amended: the settings dialog's spin box clamps its input to
[8, 72] (7 becomes 8, 73 becomes 72) before it reaches the
configuration and `apply_font`, and the dialog save path therefore
always establishes an in-range `fontSize`; the load path performs no
such clamping. -/
theorem C5_dialog_clamps_font_size :
    (∀ v : Int, 8 ≤ qspinValue 8 72 v ∧ qspinValue 8 72 v ≤ 72) ∧
    qspinValue 8 72 7 = 8 ∧ qspinValue 8 72 73 = 72 ∧
    (∀ s st d g s' st', save_settings s st d g = some (s', st') →
      8 ≤ s'.config.font_size ∧ s'.config.font_size ≤ 72) := by
  have hq : ∀ v : Int, 8 ≤ qspinValue 8 72 v ∧ qspinValue 8 72 v ≤ 72 := by
    intro v
    rw [qspinValue]
    constructor
    · exact le_max_left _ _
    · exact max_le (by norm_num) (min_le_left _ _)
  refine ⟨hq, by decide, by decide, ?_⟩
  intro s st d g s' st' h
  have hv := (save_settings_fields s st d g s' st' h).2.2.1
  rw [hv]
  exact hq d.size_input

/-- Dialog input used to instantiate the dialog-save theorems: Dark
theme selected, size 7 typed into the spin box. -/
def sampleDialogInput : DialogInput :=
  { theme_id := 1, family := "Arial", size_input := 7, weight := 700,
    aot := false, debug := false }

/-- The state/store pair the dialog save path computes on the sample
inputs. -/
def sampleSavedPair : AppState × Store :=
  (save_settings sampleState emptyStore sampleDialogInput "dialog-geom").getD
    (sampleState, emptyStore)

/-- Witness for C5, applying the amended theorem at a concrete dialog
save. -/
theorem C5_witness :
    save_settings sampleState emptyStore sampleDialogInput "dialog-geom" =
      some sampleSavedPair ∧
    8 ≤ sampleSavedPair.1.config.font_size ∧
    sampleSavedPair.1.config.font_size ≤ 72 := by
  have h : save_settings sampleState emptyStore sampleDialogInput "dialog-geom" =
      some (sampleSavedPair.1, sampleSavedPair.2) := rfl
  exact ⟨h, C5_dialog_clamps_font_size.2.2.2 sampleState emptyStore sampleDialogInput
    "dialog-geom" sampleSavedPair.1 sampleSavedPair.2 h⟩

theorem save_get_sdg_some (s : AppState) (st : Store) (g : String)
    (h : s.settings_dialog_geometry = some g) :
    (save_settings_to_file s st).get? "settings_dialog_geometry" = some g := by
  rw [save_settings_to_file, h]
  simp [Store.get?_set_self]

/-- C6: the boolean fields `show_debug` and `always_on_top` are
persisted to the store as the literal strings "true"/"false", not as
native booleans, and the load path decodes exactly that encoding by
equality with the string "true". -/
theorem C6_bool_string_encoding :
    (∀ s st,
      (save_settings_to_file s st).get? "show_debug"
          = some (pyStrOfBool s.config.show_debug) ∧
      (save_settings_to_file s st).get? "always_on_top"
          = some (pyStrOfBool s.config.always_on_top)) ∧
    (∀ b, pyStrOfBool b = "true" ∨ pyStrOfBool b = "false") ∧
    (∀ b, ((pyStrOfBool b) == "true") = b) ∧
    (∀ st r, load_settings st = some r →
      r.config.show_debug = (getStr st "show_debug" "false" == "true") ∧
      r.config.always_on_top = (getStr st "always_on_top" "false" == "true")) := by
  refine ⟨?_, ?_, pyStrOfBool_beq_true, ?_⟩
  · intro s st
    exact ⟨save_get_show_debug s st, save_get_always_on_top s st⟩
  · intro b
    cases b
    · right
      rfl
    · left
      rfl
  · intro st r h
    have hf := load_settings_fields st r h
    exact ⟨hf.2.2.2.2.1, hf.2.2.2.2.2.2.1⟩

/-- Witness for C6, at the sample state and the empty store. -/
theorem C6_witness :
    (save_settings_to_file sampleState emptyStore).get? "show_debug"
        = some (pyStrOfBool sampleState.config.show_debug) ∧
    emptyLoadResult.config.show_debug
        = (getStr emptyStore "show_debug" "false" == "true") :=
  ⟨(C6_bool_string_encoding.1 sampleState emptyStore).1,
   (C6_bool_string_encoding.2.2.2 emptyStore emptyLoadResult rfl).1⟩

/-- C7: closing the settings dialog without pressing Save (`Open ->
Discarded`) records the dialog's own geometry, leaves every substantive
configuration field unchanged in memory, and the values it persists for
those fields are exactly the pre-dialog configuration values. -/
theorem C7_discard_keeps_config (s : AppState) (st : Store) (g : String) :
    (close_event s st g).1.config = s.config ∧
    (close_event s st g).1.settings_dialog_geometry = some g ∧
    (close_event s st g).2.get? "settings_dialog_geometry" = some g ∧
    (close_event s st g).2.get? "theme_mode" = some s.config.theme_mode ∧
    (close_event s st g).2.get? "font_name" = some s.config.font_name ∧
    (close_event s st g).2.get? "font_size" = some (pyStrOfInt s.config.font_size) ∧
    (close_event s st g).2.get? "font_weight" = some (pyStrOfInt s.config.font_weight) ∧
    (close_event s st g).2.get? "always_on_top"
        = some (pyStrOfBool s.config.always_on_top) ∧
    (close_event s st g).2.get? "show_debug" = some (pyStrOfBool s.config.show_debug) :=
  ⟨rfl, rfl,
   save_get_sdg_some { s with settings_dialog_geometry := some g } st g rfl,
   save_get_theme_mode { s with settings_dialog_geometry := some g } st,
   save_get_font_name { s with settings_dialog_geometry := some g } st,
   save_get_font_size { s with settings_dialog_geometry := some g } st,
   save_get_font_weight { s with settings_dialog_geometry := some g } st,
   save_get_always_on_top { s with settings_dialog_geometry := some g } st,
   save_get_show_debug { s with settings_dialog_geometry := some g } st⟩

/-- C8: for each valid theme, applying it twice in succession yields
exactly the same visible style state (main-window style sheet, debug
console style sheet, and `theme_mode`) as applying it once. -/
theorem C8_apply_theme_idempotent (s : AppState) (t : String)
    (h : t = "Dark" ∨ t = "Light") :
    ∃ s1 n1 s2 n2,
      apply_theme s (some t) = some (s1, n1) ∧
      apply_theme s1 (some t) = some (s2, n2) ∧
      s2.main_style = s1.main_style ∧
      s2.console_style = s1.console_style ∧
      s2.config.theme_mode = s1.config.theme_mode := by
  rcases h with rfl | rfl
  · refine ⟨_, _, _, _, apply_theme_dark_eq s, apply_theme_dark_eq _, rfl, ?_, by simp⟩
    by_cases hc : s.has_console <;> simp [hc]
  · refine ⟨_, _, _, _, apply_theme_light_eq s, apply_theme_light_eq _, rfl, ?_, by simp⟩
    by_cases hc : s.has_console <;> simp [hc]

/-- Witness for C8, applying the Dark theme twice to the sample state. -/
theorem C8_witness :
    (("Dark" : String) = "Dark" ∨ ("Dark" : String) = "Light") ∧
    ∃ s1 n1 s2 n2,
      apply_theme sampleState (some "Dark") = some (s1, n1) ∧
      apply_theme s1 (some "Dark") = some (s2, n2) ∧
      s2.main_style = s1.main_style ∧
      s2.console_style = s1.console_style ∧
      s2.config.theme_mode = s1.config.theme_mode :=
  ⟨Or.inl rfl, C8_apply_theme_idempotent sampleState "Dark" (Or.inl rfl)⟩

/-- The state startup computes from a fresh, empty store. -/
def freshStartupState : AppState := (startup emptyStore).getD sampleState

/-- C9: a fresh process with no prior stored settings starts with the
default state: geometry (100, 100) sized 800 by 600, theme Dark with
the Dark style applied, font Arial size 16 weight Normal, debug console
absent and hidden, always-on-top off. -/
theorem C9_fresh_start_defaults :
    startup emptyStore = some freshStartupState ∧
    freshStartupState.window_geom = WindowGeom.rect 100 100 800 600 ∧
    freshStartupState.config.theme_mode = "Dark" ∧
    freshStartupState.main_style = darkWindowStyle ∧
    freshStartupState.config.font_name = "Arial" ∧
    freshStartupState.config.font_size = 16 ∧
    freshStartupState.config.font_weight = qfontWeightNormal ∧
    freshStartupState.applied_font = some ("Arial", 16, qfontWeightNormal) ∧
    freshStartupState.has_console = false ∧
    freshStartupState.console_visible = false ∧
    freshStartupState.config.show_debug = false ∧
    freshStartupState.stays_on_top = false ∧
    freshStartupState.config.always_on_top = false :=
  ⟨rfl, rfl, rfl, rfl, rfl, rfl, rfl, rfl, rfl, rfl, rfl, rfl, rfl⟩

/-- C10: every invocation of `save_settings_to_file` writes the live
text-area content at call time as `text_content`; in particular the
settings-dialog discard path and the debug-console close path also
persist the current editor text. -/
theorem C10_always_saves_live_text (s : AppState) (st : Store) (g : String) :
    (save_settings_to_file s st).get? "text_content" = some s.live_text ∧
    (close_event s st g).2.get? "text_content" = some s.live_text ∧
    (handle_debug_console_close s st).2.get? "text_content" = some s.live_text :=
  ⟨save_get_text_content s st,
   save_get_text_content { s with settings_dialog_geometry := some g } st,
   save_get_text_content { s with config.show_debug := false } st⟩
